import Mathlib

/-!
Shallow embedding of the amigo CTF Slack bot (the command/state engine:
`doStart`, `doValidate`, `doTopScores` and the `ScoreList` comparator).

The database state is modelled explicitly:
* `users`  — the pre-provisioned table mapping a username to a team id;
* `teams`  — the team registry, `id` is the primary key, so a plain
  `INSERT INTO teams SET id=?, name=?` fails when a row with that id exists;
* `logs`   — the append-only event log; rows carry `user`, `event` and the
  optional `level` / `team_id` columns (an INSERT that does not set a column
  leaves it NULL, modelled as `none`).

External collaborators are modelled as data: the Slack-side user directory
(`resolveUser`) is an association list from user token to resolved user, and
posting a message accumulates it in the returned message list.  Unexpected
storage errors are modelled by a `Faults` record saying which query fails;
the detail text of a Go error value is abstracted by a short tag inside
`wentWrong`.
-/

namespace Amigo

/-- Resolved Slack user (the `user` struct of the source). -/
structure user where
  username : String
  privateChannel : String
deriving DecidableEq, Repr

/-- The parts of `Config` that the command handlers read. -/
structure Config where
  puzzleLink : String
  flag1 : String
  flag2 : String
  flag3 : String
deriving DecidableEq, Repr

/-- One row of the `logs` table.  `INSERT INTO logs SET user=?, event=?`
leaves `level` and `team_id` NULL (`none`); the validate insert sets both. -/
structure LogRow where
  user : String
  event : String
  level : Option Int
  teamId : Option Int
deriving DecidableEq, Repr

/-- One row of the `teams` table (`id` is the primary key). -/
structure TeamRow where
  id : Int
  name : String
deriving DecidableEq, Repr

/-- The mutable database state seen by the handlers. -/
structure Db where
  users : List (String × Int)
  teams : List TeamRow
  logs : List LogRow
deriving DecidableEq, Repr

/-- A Slack message as posted by `postMessage` (the `Type` field is always
the constant string "message" and is omitted). -/
structure Message where
  channel : String
  text : String
deriving DecidableEq, Repr

/-- Which storage queries report an unexpected error (`err != nil` other
than `sql.ErrNoRows`).  All `false` models a healthy database. -/
structure Faults where
  startUsersQuery : Bool
  startLogQuery : Bool
  startTeamsInsert : Bool
  startLogInsert : Bool
  validateJoinQuery : Bool
  validateCountQuery : Bool
  validateDupQuery : Bool
  validateLogInsert : Bool
deriving DecidableEq, Repr

/-- Healthy storage: no query fails. -/
def noFaults : Faults :=
  ⟨false, false, false, false, false, false, false, false⟩

/-- Generic storage-error reply `sorry, something went wrong (%s)`; the Go
error detail is abstracted by a short tag. -/
def wentWrong (detail : String) : String :=
  "sorry, something went wrong (" ++ detail ++ ")"

/-- Source `isPrivate`: direct-message channels start with "D"
(`strings.HasPrefix(channel, "D")`, i.e. the first character is 'D'). -/
def isPrivate (channel : String) : Bool :=
  channel.data.head? == some 'D'

/-- Source `postError`: in a private channel the text is sent bare, in a
shared channel it is prefixed with an @-mention of the caller. -/
def postError (channel message userToken : String) : Message :=
  { channel := channel
    text := if isPrivate channel then message
            else "<@" ++ userToken ++ ">: " ++ message }

/-- Slack-side identity resolution (`resolveUser`): lookup in the directory;
a miss models a failed GetUserInfo / OpenIMChannel call. -/
def resolveUser (dir : List (String × user)) (userToken : String) : Option user :=
  (dir.find? (fun p => p.1 == userToken)).map (·.2)

/-- Query `SELECT team FROM users WHERE user=?`. -/
def usersLookup (db : Db) (username : String) : Option Int :=
  (db.users.find? (fun p => p.1 == username)).map (·.2)

/-- Query `SELECT name FROM teams WHERE id=?` (first matching row). -/
def teamsLookup (db : Db) (teamId : Int) : Option String :=
  (db.teams.find? (fun r => r.id == teamId)).map (·.name)

/-- Query `SELECT teams.name,teams.id FROM teams JOIN users ON
teams.id = users.team WHERE users.user=?`. -/
def joinLookup (db : Db) (username : String) : Option (String × Int) :=
  match usersLookup db username with
  | none => none
  | some t =>
    match teamsLookup db t with
    | none => none
    | some n => some (n, t)

/-- Query `SELECT user FROM logs WHERE team_id=?` (first matching row);
rows whose `team_id` is NULL never match. -/
def logUserForTeam (db : Db) (teamId : Int) : Option String :=
  (db.logs.find? (fun r => r.teamId == some teamId)).map (·.user)

/-- Statement `INSERT INTO teams SET id=?, name=?`: `id` is the primary
key, so the insert fails (returns `none`) when a row with that id already
exists — it never overwrites. -/
def insertTeam (teams : List TeamRow) (id : Int) (name : String) :
    Option (List TeamRow) :=
  if (teams.find? (fun r => r.id == id)).isSome then none
  else some (teams ++ [⟨id, name⟩])

/-- Query `SELECT COUNT(*) FROM logs WHERE team_id=? AND level=?`. -/
def countAttempts (db : Db) (teamId level : Int) : Nat :=
  (db.logs.filter (fun r => r.teamId == some teamId && r.level == some level)).length

/-- Query `SELECT COUNT(*) FROM logs WHERE team_id=? AND level=? AND event=?`. -/
def countEvent (db : Db) (teamId level : Int) (event : String) : Nat :=
  (db.logs.filter (fun r =>
    r.teamId == some teamId && r.level == some level && r.event == event)).length

/-- Digit-run parser: consumes the remaining characters, which must all be
ASCII digits, accumulating the decimal value. -/
def parseDigits (acc : Nat) : List Char → Option Nat
  | [] => some acc
  | c :: cs =>
    if c.isDigit then parseDigits (acc * 10 + (c.toNat - 48)) cs else none

/-- Source `strconv.Atoi` as used on the level argument: an optional sign
followed by at least one digit, nothing else. -/
def atoi (s : String) : Option Int :=
  match s.data with
  | [] => none
  | '-' :: cs =>
    if cs.isEmpty then none
    else (parseDigits 0 cs).map (fun n => -(n : Int))
  | '+' :: cs =>
    if cs.isEmpty then none
    else (parseDigits 0 cs).map (fun n => (n : Int))
  | cs => (parseDigits 0 cs).map (fun n => (n : Int))

/-- Source `doStart`: resolve the caller, look up the caller's team, check
the log for a row tagged with that team, insert the team-registry row
(fails on an existing id), append the `start` log row, then broadcast the
entry announcement and privately deliver the puzzle link.  Returns the new
database state and the posted messages, in posting order. -/
def doStart (config : Config) (publicChannel : String) (dir : List (String × user))
    (f : Faults) (db : Db) (userToken channel teamName : String) :
    Db × List Message :=
  match resolveUser dir userToken with
  | none => (db, [postError channel (wentWrong "resolveUser") userToken])
  | some u =>
    if f.startUsersQuery then
      (db, [postError channel (wentWrong "users query") userToken])
    else
      match usersLookup db u.username with
      | none => (db, [postError channel "sorry, I don't know which team you are on." userToken])
      | some team =>
        if f.startLogQuery then
          (db, [postError channel (wentWrong "log query") userToken])
        else
          match logUserForTeam db team with
          | some aUser =>
            (db, [postError channel
              ("sorry, " ++ aUser ++ " of your team already started the ctf!") userToken])
          | none =>
            if f.startTeamsInsert then
              (db, [postError channel (wentWrong "teams insert") userToken])
            else
              match insertTeam db.teams team teamName with
              | none => (db, [postError channel (wentWrong "duplicate key") userToken])
              | some teams' =>
                if f.startLogInsert then
                  ({ db with teams := teams' },
                   [postError channel (wentWrong "log insert") userToken])
                else
                  ({ db with
                       teams := teams',
                       logs := db.logs ++ [⟨u.username, "start", none, none⟩] },
                   [{ channel := publicChannel
                      text := "Team " ++ teamName ++ " has entered the competition!" },
                    { channel := if isPrivate channel then channel else u.privateChannel
                      text := "Here is a link to the puzzle: " ++ config.puzzleLink }])

/-- Outcome of the flag-matching switch of `doValidate`: the `event` string
written to the log and the `eventOk` flag.  Level 1 accepts two secrets
(`flag1` → "flag 1", `flag2` → "flag 2"); level 2 accepts `flag3` →
"flag 3"; anything else logs `incorrect:` followed by the submitted text. -/
def eventFor (config : Config) (level : Int) (flag : String) : String × Bool :=
  if level == 1 then
    if flag == config.flag1 then ("flag 1", true)
    else if flag == config.flag2 then ("flag 2", true)
    else ("incorrect:" ++ flag, false)
  else if level == 2 then
    if flag == config.flag3 then ("flag 3", true)
    else ("incorrect:" ++ flag, false)
  else ("incorrect:" ++ flag, false)

/-- Source `doValidate`: resolve the caller, join users/teams for the
caller's team, refuse the public channel, parse and range-check the level,
count prior attempts, apply the level-2 retry cap and duplicate check,
match the flag, append exactly one log row, then post the success
broadcast, the ran-out-of-tries notice and the reply to the caller. -/
def doValidate (config : Config) (publicChannel : String) (dir : List (String × user))
    (f : Faults) (db : Db) (userToken channel sLevel flag : String) :
    Db × List Message :=
  match resolveUser dir userToken with
  | none => (db, [postError channel (wentWrong "resolveUser") userToken])
  | some u =>
    if f.validateJoinQuery then
      (db, [postError channel (wentWrong "join query") userToken])
    else
      match joinLookup db u.username with
      | none => (db, [postError channel "sorry, I don't know which team you are on." userToken])
      | some (team, teamID) =>
        if channel == publicChannel then
          (db, [postError channel "shush!" userToken])
        else
          match atoi sLevel with
          | none => (db, [postError channel (sLevel ++ " is not a valid puzzle number") userToken])
          | some level =>
            if level < 1 then
              (db, [postError channel
                "you give us too much credit for starting puzzle enumeration from 0; humans designed this, not chat bots"
                userToken])
            else if level > 2 then
              (db, [postError channel "woaaaaah nelly! puzzle 3 hasn't started yet!" userToken])
            else
              if f.validateCountQuery then
                (db, [postError channel (wentWrong "count query") userToken])
              else
                let count := countAttempts db teamID level
                if level == 2 && count >= 10 then
                  (db, [postError channel "you've exhausted your 10 tries! no points 4 u" userToken])
                else if level == 2 && f.validateDupQuery then
                  (db, [postError channel (wentWrong "dup query") userToken])
                else if level == 2 && countEvent db teamID level ("incorrect:" ++ flag) > 0 then
                  (db, [postError channel "you (or a teammate) already tried that guess" userToken])
                else
                  let (event, eventOk) := eventFor config level flag
                  if f.validateLogInsert then
                    (db, [postError channel (wentWrong "log insert") userToken])
                  else
                    ({ db with logs := db.logs ++ [⟨u.username, event, some level, some teamID⟩] },
                     (if eventOk then
                        [{ channel := publicChannel
                           text := "Team " ++ team ++ " found " ++ event ++ "!" }]
                      else []) ++
                     (if level == 2 && count + 1 == 10 && !eventOk then
                        [{ channel := publicChannel
                           text := "Team " ++ team ++ " ran out of tries! :(" }]
                      else []) ++
                     [{ channel := channel
                        text := if eventOk then "Congrats, you found " ++ event ++ "!"
                                else "Sorry, that's not right." ++
                                  (if level == 2 then
                                    " You have " ++ toString (10 - (count + 1)) ++ " tries left."
                                   else "") }])

/-- Per-team score row built by `doTopScores` (the `teamScores` struct). -/
structure teamScores where
  teamID : Int
  hasFlag1 : Bool
  hasFlag2 : Bool
  hasFlag3 : Bool
  hasFlag4 : Bool
  hasFlag5 : Bool
  hasFlag6 : Bool
  hasFlag7 : Bool
deriving DecidableEq, Repr

/-- Source `teamScores.numFlags`: how many of the seven flags the team has. -/
def teamScores.numFlags (s : teamScores) : Nat :=
  (if s.hasFlag1 then 1 else 0) + (if s.hasFlag2 then 1 else 0) +
  (if s.hasFlag3 then 1 else 0) + (if s.hasFlag4 then 1 else 0) +
  (if s.hasFlag5 then 1 else 0) + (if s.hasFlag6 then 1 else 0) +
  (if s.hasFlag7 then 1 else 0)

/-- Source `ScoreList.Less` applied to the two compared elements: the only
comparison the sort uses is `numFlags < numFlags`. -/
def lessScore (a b : teamScores) : Bool :=
  a.numFlags < b.numFlags

/-- One insertion step of the sort under `sort.Reverse(ScoreList(...))`:
an element moves in front of its predecessor only while `Reverse.Less`,
i.e. only past elements with strictly fewer flags, so `x` descends past
the elements it is tied with and elements that entered the slice earlier
stay in front of later tied ones (on slices this short Go's `sort.Sort`
runs its plain in-place insertion sort, which stops moving an element at
the first tie). -/
def insertScore (x : teamScores) : List teamScores → List teamScores
  | [] => [x]
  | y :: ys => if lessScore x y then y :: insertScore x ys else x :: y :: ys

/-- The sort performed by `sort.Sort(sort.Reverse(ScoreList(scores)))`:
the result is a permutation of the input ordered by descending `numFlags`. -/
def sortScores : List teamScores → List teamScores
  | [] => []
  | x :: xs => insertScore x (sortScores xs)

/-- Row filter of the leaderboard query
`select id, event, team_id from logs where team_id < 666`: rows with a
NULL `team_id` (such as `start` rows) never match. -/
def rowIncluded (r : LogRow) : Bool :=
  match r.teamId with
  | some t => t < 666
  | none => false

/-- Whether the scanned rows give the team a `flag n` entry in
`eventCounts` (presence of at least one such event). -/
def hasFlagEvent (logs : List LogRow) (team : Int) (event : String) : Bool :=
  logs.any (fun r => rowIncluded r && r.teamId == some team && r.event == event)

/-- The `teamScores` row `doTopScores` builds for one team. -/
def scoreFor (logs : List LogRow) (team : Int) : teamScores :=
  { teamID := team
    hasFlag1 := hasFlagEvent logs team "flag 1"
    hasFlag2 := hasFlagEvent logs team "flag 2"
    hasFlag3 := hasFlagEvent logs team "flag 3"
    hasFlag4 := hasFlagEvent logs team "flag 4"
    hasFlag5 := hasFlagEvent logs team "flag 5"
    hasFlag6 := hasFlagEvent logs team "flag 6"
    hasFlag7 := hasFlagEvent logs team "flag 7" }

/-- Ranking computed by `doTopScores`: build one `teamScores` per team and
sort by descending flag count.  The `teams` set is a Go map, whose
iteration order is arbitrary and randomized between runs; `order` makes
that traversal order an explicit input. -/
def doTopScores (logs : List LogRow) (order : List Int) : List teamScores :=
  sortScores (order.map (scoreFor logs))

/-! Concrete fixtures used by the theorems below. -/

/-- Sample configuration with three distinct secrets. -/
def cfgC : Config := ⟨"http://puzzle", "F1", "F2", "F3"⟩

/-- Sample Slack directory: two resolvable users. -/
def dirC : List (String × user) := [("UA", ⟨"alice", "D1"⟩), ("UB", ⟨"bob", "D2"⟩)]

/-- State after alice (team 7) started successfully: the registry row
exists and the log holds her `start` row (whose `team_id` is NULL, exactly
as the source's `INSERT INTO logs SET user=?, event='start'` leaves it). -/
def dbA : Db :=
  { users := [("alice", 7), ("bob", 7)]
    teams := [⟨7, "Red Team"⟩]
    logs := [⟨"alice", "start", none, none⟩] }

/-- State where alice's team already logged the incorrect level-1 guess
"zzz" once. -/
def dbB : Db :=
  { users := [("alice", 7)]
    teams := [⟨7, "Red Team"⟩]
    logs := [⟨"alice", "start", none, none⟩,
             ⟨"alice", "incorrect:zzz", some 1, some 7⟩] }

/-- State where alice's team already logged ten level-2 attempts. -/
def dbC : Db :=
  { users := [("alice", 7)]
    teams := [⟨7, "Red Team"⟩]
    logs := List.replicate 10 ⟨"alice", "incorrect:a", some 2, some 7⟩ }

/-- State where alice's team already found flag 3 once (one level-2 row,
event "flag 3"). -/
def dbD : Db :=
  { users := [("alice", 7)]
    teams := [⟨7, "Red Team"⟩]
    logs := [⟨"alice", "flag 3", some 2, some 7⟩] }

/-- State where alice's team already logged the incorrect level-2 guess
"zzz2" once. -/
def dbDup : Db :=
  { users := [("alice", 7)]
    teams := [⟨7, "Red Team"⟩]
    logs := [⟨"alice", "incorrect:zzz2", some 2, some 7⟩] }

/-- Event log where teams 1 and 2 each found flag 1, but team 2 burned two
level-2 attempts while team 1 used none: tied on flags, different tries. -/
def logsT : List LogRow :=
  [⟨"alice", "flag 1", some 1, some 1⟩, ⟨"carol", "flag 1", some 1, some 2⟩,
   ⟨"carol", "incorrect:x", some 2, some 2⟩, ⟨"carol", "incorrect:y", some 2, some 2⟩]

/-- Database around `logsT` (for attempt counting). -/
def dbT : Db := ⟨[], [], logsT⟩

/-- Event log where team 1 found flags 1 and 2 and team 2 found only
flag 1. -/
def logs8 : List LogRow :=
  [⟨"a", "flag 1", some 1, some 1⟩, ⟨"a", "flag 2", some 1, some 1⟩,
   ⟨"b", "flag 1", some 1, some 2⟩]

/-! Helper lemmas. -/

/-- A successful `find?` on a prefix survives appending rows. -/
theorem find?_append_of_some {α : Type} {l₁ : List α} (l₂ : List α)
    {p : α → Bool} {a : α} (h : l₁.find? p = some a) :
    (l₁ ++ l₂).find? p = some a := by
  induction l₁ with
  | nil => simp [List.find?] at h
  | cons x xs ih =>
    by_cases hp : p x
    · simp [List.find?, hp] at h ⊢; exact h
    · simp only [List.cons_append, List.find?, hp] at h ⊢
      exact ih h

/-- Exhaustive outcome analysis of `doStart`: either it stops at some
precondition or storage error — posting exactly one error reply, leaving
the log untouched and the registry either untouched or (only when the
final log insert fails) extended by one successful `insertTeam` — or it
completes the whole flow: one registry insert, one appended `start` row,
the public broadcast and the private puzzle link. -/
theorem doStart_cases (config : Config) (pub : String) (dir : List (String × user))
    (f : Faults) (db : Db) (userToken channel teamName : String) :
    (∃ t, (doStart config pub dir f db userToken channel teamName).2
        = [postError channel t userToken] ∧
      (doStart config pub dir f db userToken channel teamName).1.logs = db.logs ∧
      ((doStart config pub dir f db userToken channel teamName).1.teams = db.teams ∨
        ∃ team teams', insertTeam db.teams team teamName = some teams' ∧
          (doStart config pub dir f db userToken channel teamName).1.teams = teams')) ∨
    (∃ u team teams', resolveUser dir userToken = some u ∧
      insertTeam db.teams team teamName = some teams' ∧
      doStart config pub dir f db userToken channel teamName
        = (⟨db.users, teams', db.logs ++ [⟨u.username, "start", none, none⟩]⟩,
          [⟨pub, "Team " ++ teamName ++ " has entered the competition!"⟩,
           ⟨if isPrivate channel then channel else u.privateChannel,
            "Here is a link to the puzzle: " ++ config.puzzleLink⟩])) := by
  unfold doStart
  cases h1 : resolveUser dir userToken with
  | none => exact Or.inl ⟨_, rfl, rfl, Or.inl rfl⟩
  | some u =>
    dsimp only
    by_cases h2 : f.startUsersQuery = true
    · rw [if_pos h2]; exact Or.inl ⟨_, rfl, rfl, Or.inl rfl⟩
    · rw [if_neg h2]
      cases h3 : usersLookup db u.username with
      | none => exact Or.inl ⟨_, rfl, rfl, Or.inl rfl⟩
      | some team =>
        dsimp only
        by_cases h4 : f.startLogQuery = true
        · rw [if_pos h4]; exact Or.inl ⟨_, rfl, rfl, Or.inl rfl⟩
        · rw [if_neg h4]
          cases h5 : logUserForTeam db team with
          | some aUser => exact Or.inl ⟨_, rfl, rfl, Or.inl rfl⟩
          | none =>
            dsimp only
            by_cases h6 : f.startTeamsInsert = true
            · rw [if_pos h6]; exact Or.inl ⟨_, rfl, rfl, Or.inl rfl⟩
            · rw [if_neg h6]
              cases h7 : insertTeam db.teams team teamName with
              | none => exact Or.inl ⟨_, rfl, rfl, Or.inl rfl⟩
              | some teams' =>
                dsimp only
                by_cases h8 : f.startLogInsert = true
                · rw [if_pos h8]
                  exact Or.inl ⟨_, rfl, rfl, Or.inr ⟨team, teams', h7, rfl⟩⟩
                · rw [if_neg h8]
                  exact Or.inr ⟨u, team, teams', rfl, h7, rfl⟩

/-- Exhaustive outcome analysis of `doValidate`: either it stops at some
precondition or storage error — posting exactly one error reply and
changing nothing — or it appends exactly one log row and posts at least
one reply. -/
theorem doValidate_cases (config : Config) (pub : String) (dir : List (String × user))
    (f : Faults) (db : Db) (userToken channel sLevel flag : String) :
    ((doValidate config pub dir f db userToken channel sLevel flag).1 = db ∧
      ∃ t, (doValidate config pub dir f db userToken channel sLevel flag).2
        = [postError channel t userToken]) ∨
    (∃ e, (doValidate config pub dir f db userToken channel sLevel flag).1
        = ⟨db.users, db.teams, db.logs ++ [e]⟩ ∧
      (doValidate config pub dir f db userToken channel sLevel flag).2 ≠ []) := by
  unfold doValidate
  cases h1 : resolveUser dir userToken with
  | none => exact Or.inl ⟨rfl, _, rfl⟩
  | some u =>
    dsimp only
    by_cases h2 : f.validateJoinQuery = true
    · rw [if_pos h2]; exact Or.inl ⟨rfl, _, rfl⟩
    · rw [if_neg h2]
      cases h3 : joinLookup db u.username with
      | none => exact Or.inl ⟨rfl, _, rfl⟩
      | some p =>
        obtain ⟨team, teamID⟩ := p
        dsimp only
        by_cases h4 : (channel == pub) = true
        · rw [if_pos h4]; exact Or.inl ⟨rfl, _, rfl⟩
        · rw [if_neg h4]
          cases h5 : atoi sLevel with
          | none => exact Or.inl ⟨rfl, _, rfl⟩
          | some level =>
            dsimp only
            by_cases h6 : level < 1
            · rw [if_pos h6]; exact Or.inl ⟨rfl, _, rfl⟩
            · rw [if_neg h6]
              by_cases h7 : level > 2
              · rw [if_pos h7]; exact Or.inl ⟨rfl, _, rfl⟩
              · rw [if_neg h7]
                by_cases h8 : f.validateCountQuery = true
                · rw [if_pos h8]; exact Or.inl ⟨rfl, _, rfl⟩
                · rw [if_neg h8]
                  by_cases h9 :
                      (level == 2 && decide (countAttempts db teamID level ≥ 10)) = true
                  · rw [if_pos h9]; exact Or.inl ⟨rfl, _, rfl⟩
                  · rw [if_neg h9]
                    by_cases h10 : (level == 2 && f.validateDupQuery) = true
                    · rw [if_pos h10]; exact Or.inl ⟨rfl, _, rfl⟩
                    · rw [if_neg h10]
                      by_cases h11 :
                          (level == 2 &&
                            decide (countEvent db teamID level ("incorrect:" ++ flag) > 0)) = true
                      · rw [if_pos h11]; exact Or.inl ⟨rfl, _, rfl⟩
                      · rw [if_neg h11]
                        cases hev : eventFor config level flag with
                        | mk event eventOk =>
                          dsimp only
                          by_cases h12 : f.validateLogInsert = true
                          · rw [if_pos h12]; exact Or.inl ⟨rfl, _, rfl⟩
                          · rw [if_neg h12]
                            refine Or.inr
                              ⟨⟨u.username, event, some level, some teamID⟩, rfl, ?_⟩
                            simp

/-! Theorems for the claims. -/

/-- Claim C1 (failing input): alice of team 7 has started, so the log holds
a prior `Start` event for the team; bob's `start` call for the same team is
indeed rejected without appending anything, but the reply is the generic
storage-conflict message from the failed `teams` insert, not a message
naming alice.  The `SELECT user FROM logs WHERE team_id=?` guard cannot see
the prior Start row because `INSERT INTO logs SET user=?, event='start'`
leaves `team_id` NULL, so the naming branch is unreachable for Start
events. -/
theorem c1_second_start_generic_not_naming :
    doStart cfgC "Cpub" dirC noFaults dbA "UB" "D2" "Blue Team"
      = (dbA, [{ channel := "D2", text := wentWrong "duplicate key" }]) ∧
    (dbA.logs.filter (fun r => r.event == "start")).length = 1 ∧
    logUserForTeam dbA 7 = none := by
  refine ⟨by decide, by decide, by decide⟩

/-- Claim C5: a `validate` call whose channel is the designated public
channel never changes the database (no event is appended) and always posts
exactly one rejection reply, for every state, fault pattern and flag. -/
theorem c5_public_validate_rejected (config : Config) (pub : String)
    (dir : List (String × user)) (f : Faults) (db : Db)
    (userToken sLevel flag : String) :
    (doValidate config pub dir f db userToken pub sLevel flag).1 = db ∧
    ∃ t, (doValidate config pub dir f db userToken pub sLevel flag).2
      = [postError pub t userToken] := by
  unfold doValidate
  cases h1 : resolveUser dir userToken with
  | none => exact ⟨rfl, wentWrong "resolveUser", rfl⟩
  | some u =>
    dsimp only
    by_cases h2 : f.validateJoinQuery = true
    · rw [if_pos h2]
      exact ⟨rfl, wentWrong "join query", rfl⟩
    · rw [if_neg h2]
      cases h3 : joinLookup db u.username with
      | none => exact ⟨rfl, "sorry, I don't know which team you are on.", rfl⟩
      | some p =>
        obtain ⟨team, teamID⟩ := p
        dsimp only
        rw [if_pos (show (pub == pub) = true by simp)]
        exact ⟨rfl, "shush!", rfl⟩

/-- Claim C2: the registry insert is atomic first-write-wins — `insertTeam`
fails (returns `none`, never overwriting) whenever a row for the team id
exists — and consequently no `start` call, whatever its team name, faults
or caller, ever changes the name stored for an already-registered team. -/
theorem c2_registry_first_write_wins (config : Config) (pub : String)
    (dir : List (String × user)) (f : Faults) (db : Db)
    (userToken channel teamName : String) (tid : Int) (nm : String)
    (h : teamsLookup db tid = some nm) :
    (∀ n', insertTeam db.teams tid n' = none) ∧
    teamsLookup (doStart config pub dir f db userToken channel teamName).1 tid
      = some nm := by
  obtain ⟨r, hfind, hname⟩ :
      ∃ r, db.teams.find? (fun x => x.id == tid) = some r ∧ r.name = nm := by
    unfold teamsLookup at h
    cases hf : db.teams.find? (fun x => x.id == tid) with
    | none => rw [hf] at h; simp at h
    | some r => rw [hf] at h; simp at h; exact ⟨r, rfl, h⟩
  have hsome : (db.teams.find? (fun x => x.id == tid)).isSome := by
    rw [hfind]; rfl
  have hmono : ∀ teams' team n', insertTeam db.teams team n' = some teams' →
      teamsLookup ⟨db.users, teams', db.logs⟩ tid = some nm := by
    intro teams' team n' hins
    unfold insertTeam at hins
    by_cases hdup : (db.teams.find? (fun x => x.id == team)).isSome
    · rw [if_pos hdup] at hins; cases hins
    · rw [if_neg hdup] at hins
      injection hins with hins
      unfold teamsLookup
      dsimp only
      rw [← hins, find?_append_of_some _ hfind, Option.map_some']
      rw [hname]
  refine ⟨fun n' => by unfold insertTeam; rw [if_pos hsome], ?_⟩
  rcases doStart_cases config pub dir f db userToken channel teamName with
    ⟨t, _, _, hT | ⟨team, teams', hins, hT⟩⟩ | ⟨u, team, teams', _, hins, heq⟩
  · unfold teamsLookup at h ⊢
    rw [hT]; exact h
  · have := hmono teams' team teamName hins
    unfold teamsLookup at this ⊢
    rw [hT]; exact this
  · have := hmono teams' team teamName hins
    unfold teamsLookup at this ⊢
    rw [heq]; exact this

/-- Closed instance of `c2_registry_first_write_wins`: team 7 is registered
as "Red Team" in `dbA`, so the insert for id 7 fails and bob's second
`start` with the name "Blue Team" leaves the stored name unchanged. -/
theorem c2_witness :
    teamsLookup dbA 7 = some "Red Team" ∧
    ((∀ n', insertTeam dbA.teams 7 n' = none) ∧
      teamsLookup (doStart cfgC "Cpub" dirC noFaults dbA "UB" "D2" "Blue Team").1 7
        = some "Red Team") :=
  ⟨by decide, c2_registry_first_write_wins cfgC "Cpub" dirC noFaults dbA
    "UB" "D2" "Blue Team" 7 "Red Team" (by decide)⟩

/-- Claim C7: every command handler is terminal.  `doValidate` either leaves
the state untouched and posts exactly one error reply, or appends exactly
one log row (its only write); `doStart` either appends nothing to the log
and posts exactly one error reply, or appends exactly one `start` row and
posts its two success messages; and concretely, a storage error on the
validate attempt-count query aborts the call with the single generic
reply and no log insert — never a silent success. -/
theorem c7_handlers_terminal :
    (∀ (config : Config) (pub : String) (dir : List (String × user)) (f : Faults)
        (db : Db) (userToken channel sLevel flag : String),
      ((doValidate config pub dir f db userToken channel sLevel flag).1 = db ∧
        ∃ t, (doValidate config pub dir f db userToken channel sLevel flag).2
          = [postError channel t userToken]) ∨
      (∃ e, (doValidate config pub dir f db userToken channel sLevel flag).1
          = ⟨db.users, db.teams, db.logs ++ [e]⟩ ∧
        (doValidate config pub dir f db userToken channel sLevel flag).2 ≠ [])) ∧
    (∀ (config : Config) (pub : String) (dir : List (String × user)) (f : Faults)
        (db : Db) (userToken channel teamName : String),
      ((doStart config pub dir f db userToken channel teamName).1.logs = db.logs ∧
        ∃ t, (doStart config pub dir f db userToken channel teamName).2
          = [postError channel t userToken]) ∨
      (∃ e, (doStart config pub dir f db userToken channel teamName).1.logs
          = db.logs ++ [e] ∧
        (doStart config pub dir f db userToken channel teamName).2.length = 2)) ∧
    doValidate cfgC "Cpub" dirC ⟨false, false, false, false, false, true, false, false⟩
        dbB "UA" "D1" "2" "x"
      = (dbB, [postError "D1" (wentWrong "count query") "UA"]) := by
  refine ⟨?_, ?_, by decide⟩
  · intro config pub dir f db userToken channel sLevel flag
    exact doValidate_cases config pub dir f db userToken channel sLevel flag
  · intro config pub dir f db userToken channel teamName
    rcases doStart_cases config pub dir f db userToken channel teamName with
      ⟨t, hm, hl, _⟩ | ⟨u, team, teams', _, _, heq⟩
    · exact Or.inl ⟨hl, t, hm⟩
    · refine Or.inr ⟨⟨u.username, "start", none, none⟩, ?_, ?_⟩ <;> (rw [heq]; try rfl)

/-- Claim C3: with the level-2 retry cap of 10, a `validate` call made when
the team already has at least 10 logged attempts for level 2 is rejected
with the exhausted message and changes nothing, whatever flag was
submitted. -/
theorem c3_attempts_exhausted (config : Config) (pub : String)
    (dir : List (String × user)) (db : Db) (userToken channel flag : String)
    (u : user) (nm : String) (tid : Int)
    (h1 : resolveUser dir userToken = some u)
    (h2 : joinLookup db u.username = some (nm, tid))
    (h3 : (channel == pub) = false)
    (h4 : countAttempts db tid 2 ≥ 10) :
    doValidate config pub dir noFaults db userToken channel "2" flag
      = (db, [postError channel "you've exhausted your 10 tries! no points 4 u" userToken]) := by
  unfold doValidate
  simp [h1, h2, h3, h4, noFaults, show atoi "2" = some 2 by decide]

/-- Closed instance of `c3_attempts_exhausted`: `dbC` holds ten level-2
attempts for team 7, so an 11th call — here with the correct flag — is
rejected and the state is unchanged. -/
theorem c3_witness :
    doValidate cfgC "Cpub" dirC noFaults dbC "UA" "D1" "2" "F3"
      = (dbC, [postError "D1" "you've exhausted your 10 tries! no points 4 u" "UA"]) :=
  c3_attempts_exhausted cfgC "Cpub" dirC dbC "UA" "D1" "F3" ⟨"alice", "D1"⟩ "Red Team" 7
    (by decide) (by decide) (by decide) (by decide)

/-- Claim C4 (counterexample): duplicate suppression exists only for
level 2, so the identical incorrect level-1 flag "zzz", already logged once
in `dbB`, is accepted again: the call appends a second identical
`IncorrectAttempt` row instead of rejecting it, leaving two such events in
the log. -/
theorem c4_counterexample :
    countEvent dbB 7 1 "incorrect:zzz" = 1 ∧
    countEvent (doValidate cfgC "Cpub" dirC noFaults dbB "UA" "D1" "1" "zzz").1
      7 1 "incorrect:zzz" = 2 ∧
    (doValidate cfgC "Cpub" dirC noFaults dbB "UA" "D1" "1" "zzz").1.logs.length
      = dbB.logs.length + 1 :=
  ⟨by decide, by decide, by decide⟩

/-- Claim C4 (amended): for level 2 — the only level with a
duplicate-suppression policy — submitting an incorrect flag identical to an
already-logged attempt is rejected as a duplicate and appends no new
event. -/
theorem c4_level2_duplicate_rejected (config : Config) (pub : String)
    (dir : List (String × user)) (db : Db) (userToken channel flag : String)
    (u : user) (nm : String) (tid : Int)
    (h1 : resolveUser dir userToken = some u)
    (h2 : joinLookup db u.username = some (nm, tid))
    (h3 : (channel == pub) = false)
    (h4 : countAttempts db tid 2 < 10)
    (h5 : countEvent db tid 2 ("incorrect:" ++ flag) > 0) :
    doValidate config pub dir noFaults db userToken channel "2" flag
      = (db, [postError channel "you (or a teammate) already tried that guess" userToken]) := by
  unfold doValidate
  simp [h1, h2, h3, h5, noFaults, Nat.not_le.mpr h4, show atoi "2" = some 2 by decide]

/-- Closed instance of `c4_level2_duplicate_rejected`: the level-2 guess
"zzz2" is already logged for team 7 in `dbDup`, so resubmitting it is
rejected and nothing is appended. -/
theorem c4_witness :
    doValidate cfgC "Cpub" dirC noFaults dbDup "UA" "D1" "2" "zzz2"
      = (dbDup, [postError "D1" "you (or a teammate) already tried that guess" "UA"]) :=
  c4_level2_duplicate_rejected cfgC "Cpub" dirC dbDup "UA" "D1" "zzz2" ⟨"alice", "D1"⟩
    "Red Team" 7 (by decide) (by decide) (by decide) (by decide) (by decide)

/-- Claim C6: a `validate` call that passes every preceding check appends
exactly one log row, tagged with the level and the team id, whose event is
decided by `eventFor`: the named flag on an exact, case-sensitive match
against the level's secrets (level 1 accepts two secrets mapping to
distinct named flags), else `incorrect:` followed by the submitted text. -/
theorem c6_appends_exactly_one (config : Config) (pub : String)
    (dir : List (String × user)) (db : Db) (userToken channel sLevel flag : String)
    (u : user) (nm : String) (tid : Int) (level : Int)
    (h1 : resolveUser dir userToken = some u)
    (h2 : joinLookup db u.username = some (nm, tid))
    (h3 : (channel == pub) = false)
    (h4 : atoi sLevel = some level)
    (h5 : level = 1 ∨ level = 2)
    (h6 : level = 2 → countAttempts db tid 2 < 10 ∧
      countEvent db tid 2 ("incorrect:" ++ flag) = 0) :
    (doValidate config pub dir noFaults db userToken channel sLevel flag).1
      = ⟨db.users, db.teams,
         db.logs ++ [⟨u.username, (eventFor config level flag).1, some level, some tid⟩]⟩ := by
  rcases h5 with h5 | h5
  · subst h5
    unfold doValidate
    cases hev : eventFor config 1 flag with
    | mk ev ok => simp [h1, h2, h3, h4, hev, noFaults]
  · subst h5
    obtain ⟨hc, hd⟩ := h6 rfl
    unfold doValidate
    cases hev : eventFor config 2 flag with
    | mk ev ok => simp [h1, h2, h3, h4, hev, hd, noFaults, Nat.not_le.mpr hc]

/-- Closed instance of `c6_appends_exactly_one`: submitting the first
level-1 secret appends exactly the matching `flag 1` row for team 7. -/
theorem c6_witness :
    (doValidate cfgC "Cpub" dirC noFaults dbA "UA" "D1" "1" "F1").1
      = ⟨dbA.users, dbA.teams,
         dbA.logs ++ [⟨"alice", (eventFor cfgC 1 "F1").1, some 1, some 7⟩]⟩ :=
  c6_appends_exactly_one cfgC "Cpub" dirC dbA "UA" "D1" "1" "F1" ⟨"alice", "D1"⟩
    "Red Team" 7 1 (by decide) (by decide) (by decide) (by decide) (Or.inl rfl)
    (fun h => absurd h (by decide))

/-- A flag-found event name is never a duplicate-check pattern: the
duplicate query matches only events of the form `incorrect:` plus the
submitted text. -/
theorem flag3_ne_incorrect (s : String) : "flag 3" ≠ "incorrect:" ++ s := by
  intro h
  have hlen := congrArg String.length h
  rw [String.length_append] at hlen
  have h6 : ("flag 3" : String).length = 6 := by decide
  have h10 : ("incorrect:" : String).length = 10 := by decide
  omega

/-- Claim C10: re-submitting the correct level-2 flag after the team has
already found it is blocked by neither the retry cap (while attempts are
below 10) nor the duplicate check (prior events for the level read
`flag 3`, never `incorrect:` plus the flag): the call appends another
`flag 3` row and re-broadcasts the found announcement publicly. -/
theorem c10_refind_flag_appends (config : Config) (pub : String)
    (dir : List (String × user)) (db : Db) (userToken channel : String)
    (u : user) (nm : String) (tid : Int)
    (h1 : resolveUser dir userToken = some u)
    (h2 : joinLookup db u.username = some (nm, tid))
    (h3 : (channel == pub) = false)
    (h4 : countAttempts db tid 2 < 10)
    (h5 : ∀ r ∈ db.logs, r.teamId = some tid → r.level = some 2 → r.event = "flag 3") :
    doValidate config pub dir noFaults db userToken channel "2" config.flag3
      = (⟨db.users, db.teams, db.logs ++ [⟨u.username, "flag 3", some 2, some tid⟩]⟩,
         [⟨pub, "Team " ++ nm ++ " found " ++ "flag 3" ++ "!"⟩,
          ⟨channel, "Congrats, you found " ++ "flag 3" ++ "!"⟩]) := by
  have hd : countEvent db tid 2 ("incorrect:" ++ config.flag3) = 0 := by
    unfold countEvent
    have hnil : db.logs.filter (fun r =>
        r.teamId == some tid && r.level == some 2 &&
        r.event == ("incorrect:" ++ config.flag3)) = [] := by
      rw [List.filter_eq_nil_iff]
      intro r hr hcontra
      simp only [Bool.and_eq_true, beq_iff_eq] at hcontra
      obtain ⟨⟨ht, hl⟩, hev⟩ := hcontra
      rw [h5 r hr ht hl] at hev
      exact flag3_ne_incorrect config.flag3 hev
    rw [hnil]
    rfl
  unfold doValidate
  simp [h1, h2, h3, hd, noFaults, eventFor, Nat.not_le.mpr h4,
    show atoi "2" = some 2 by decide]

/-- Closed instance of `c10_refind_flag_appends`: team 7 already found
flag 3 once in `dbD`; submitting the correct flag again appends a second
`flag 3` row and re-broadcasts to the public channel. -/
theorem c10_witness :
    doValidate cfgC "Cpub" dirC noFaults dbD "UA" "D1" "2" cfgC.flag3
      = (⟨dbD.users, dbD.teams, dbD.logs ++ [⟨"alice", "flag 3", some 2, some 7⟩]⟩,
         [⟨"Cpub", "Team " ++ "Red Team" ++ " found " ++ "flag 3" ++ "!"⟩,
          ⟨"D1", "Congrats, you found " ++ "flag 3" ++ "!"⟩]) :=
  c10_refind_flag_appends cfgC "Cpub" dirC dbD "UA" "D1" ⟨"alice", "D1"⟩ "Red Team" 7
    (by decide) (by decide) (by decide) (by decide) (by decide)

/-- Membership in one insertion step of the score sort. -/
theorem mem_insertScore {z x : teamScores} {l : List teamScores} :
    z ∈ insertScore x l ↔ z = x ∨ z ∈ l := by
  induction l with
  | nil => simp [insertScore]
  | cons y ys ih =>
    unfold insertScore
    by_cases h : lessScore x y = true
    · rw [if_pos h]
      simp only [List.mem_cons, ih]
      tauto
    · rw [if_neg h]
      simp only [List.mem_cons]

/-- One insertion step permutes the inserted element into the list. -/
theorem insertScore_perm (x : teamScores) (l : List teamScores) :
    (insertScore x l).Perm (x :: l) := by
  induction l with
  | nil => exact List.Perm.refl _
  | cons y ys ih =>
    unfold insertScore
    by_cases h : lessScore x y = true
    · rw [if_pos h]
      exact (ih.cons y).trans (List.Perm.swap x y ys)
    · rw [if_neg h]

/-- The score sort permutes its input. -/
theorem sortScores_perm (l : List teamScores) : (sortScores l).Perm l := by
  induction l with
  | nil => exact List.Perm.refl _
  | cons x xs ih =>
    unfold sortScores
    exact (insertScore_perm x (sortScores xs)).trans (ih.cons x)

/-- Inserting into a descending-by-flag-count list keeps it descending. -/
theorem insertScore_pairwise (x : teamScores) (l : List teamScores)
    (h : l.Pairwise (fun a b => b.numFlags ≤ a.numFlags)) :
    (insertScore x l).Pairwise (fun a b => b.numFlags ≤ a.numFlags) := by
  induction l with
  | nil => simp [insertScore]
  | cons y ys ih =>
    rw [List.pairwise_cons] at h
    obtain ⟨hy, hys⟩ := h
    unfold insertScore
    by_cases hxy : lessScore x y = true
    · rw [if_pos hxy]
      rw [List.pairwise_cons]
      refine ⟨?_, ih hys⟩
      intro z hz
      rcases mem_insertScore.mp hz with rfl | hz
      · exact Nat.le_of_lt (by simpa [lessScore] using hxy)
      · exact hy z hz
    · rw [if_neg hxy]
      have hyx : y.numFlags ≤ x.numFlags :=
        Nat.le_of_not_lt (by simpa [lessScore] using hxy)
      rw [List.pairwise_cons]
      refine ⟨?_, List.Pairwise.cons hy hys⟩
      intro z hz
      rcases List.mem_cons.mp hz with rfl | hz
      · exact hyx
      · exact Nat.le_trans (hy z hz) hyx

/-- The score sort output is descending in flag count. -/
theorem sortScores_pairwise (l : List teamScores) :
    (sortScores l).Pairwise (fun a b => b.numFlags ≤ a.numFlags) := by
  induction l with
  | nil => simp [sortScores]
  | cons x xs ih =>
    unfold sortScores
    exact insertScore_pairwise x (sortScores xs) ih

/-- Claim C8: the leaderboard ranks teams primarily by number of flags
found, descending — for every log and every traversal order of the team
map, the ranked output is a permutation of the per-team scores in which
every later entry has at most as many flags as every earlier one; and
concretely team 1 (flags 1 and 2) is listed above team 2 (flag 1 only),
whichever way the team map happens to be traversed. -/
theorem c8_leaderboard_by_flags_desc :
    (∀ (logs : List LogRow) (order : List Int),
      (doTopScores logs order).Pairwise (fun a b => b.numFlags ≤ a.numFlags) ∧
      (doTopScores logs order).Perm (order.map (scoreFor logs))) ∧
    (scoreFor logs8 1).numFlags = 2 ∧ (scoreFor logs8 2).numFlags = 1 ∧
    doTopScores logs8 [1, 2] = [scoreFor logs8 1, scoreFor logs8 2] ∧
    doTopScores logs8 [2, 1] = [scoreFor logs8 1, scoreFor logs8 2] :=
  ⟨fun _ order => ⟨sortScores_pairwise _, sortScores_perm _⟩,
    by decide, by decide, by decide, by decide⟩

/-- Claim C9 (counterexample): teams 1 and 2 of `logsT` are tied on flags
found (one each) while team 2 burned two level-2 tries and team 1 none; the
comparator ranks them in neither direction, and the two traversal orders of
the team map — which Go randomizes between runs — make the `scores` output
list the tied teams in opposite orders over the very same event log. -/
theorem c9_counterexample :
    (scoreFor logsT 1).numFlags = (scoreFor logsT 2).numFlags ∧
    countAttempts dbT 1 2 = 0 ∧ countAttempts dbT 2 2 = 2 ∧
    lessScore (scoreFor logsT 1) (scoreFor logsT 2) = false ∧
    lessScore (scoreFor logsT 2) (scoreFor logsT 1) = false ∧
    doTopScores logsT [1, 2] = [scoreFor logsT 1, scoreFor logsT 2] ∧
    doTopScores logsT [2, 1] = [scoreFor logsT 2, scoreFor logsT 1] ∧
    scoreFor logsT 1 ≠ scoreFor logsT 2 :=
  ⟨by decide, by decide, by decide, by decide, by decide, by decide, by decide,
    by decide⟩

/-- Claim C9 (amended): when two teams are tied on number of flags found,
the comparator `ScoreList.Less` distinguishes them in neither direction —
there is no level-specific tiebreak in the scoring — and the sort keeps
tied teams in their traversal order, so their relative ranking follows the
randomized iteration order of the team map rather than any deterministic
key. -/
theorem c9_no_tiebreak_ties_follow_input (a b : teamScores)
    (h : a.numFlags = b.numFlags) :
    lessScore a b = false ∧ lessScore b a = false ∧
    sortScores [a, b] = [a, b] ∧ sortScores [b, a] = [b, a] := by
  have hab : lessScore a b = false := by simp [lessScore, h]
  have hba : lessScore b a = false := by simp [lessScore, h]
  refine ⟨hab, hba, ?_, ?_⟩ <;> simp [sortScores, insertScore, hab, hba]

/-- Closed instance of `c9_no_tiebreak_ties_follow_input` at the tied
scores of `logsT`. -/
theorem c9_witness :
    lessScore (scoreFor logsT 1) (scoreFor logsT 2) = false ∧
    lessScore (scoreFor logsT 2) (scoreFor logsT 1) = false ∧
    sortScores [scoreFor logsT 1, scoreFor logsT 2]
      = [scoreFor logsT 1, scoreFor logsT 2] ∧
    sortScores [scoreFor logsT 2, scoreFor logsT 1]
      = [scoreFor logsT 2, scoreFor logsT 1] :=
  c9_no_tiebreak_ties_follow_input (scoreFor logsT 1) (scoreFor logsT 2) (by decide)

end Amigo
